import Mathlib

/-
  Verification development for the Y26 backend (events / workshops / venues /
  budgets / expenses administration service).

  The definitions below are a shallow embedding of the request handlers the
  claims concern, translated from the TypeScript source:
    - src/routes/expenses.ts and src/routes/workshop-expenses.ts
      (GET .../summary: budget-versus-expense aggregation),
    - src/routes/budgets.ts (POST /event/:eventId/approve: budget review),
    - the events router (GET /, GET /:id, PUT /:id, POST /:id/assign-venue),
    - the workshops router (POST /:id/assign-venue).

  Conventions of the embedding:
    - database ids (TEXT/UUID columns) are modelled as Nat;
    - timestamps (TIMESTAMP columns) are modelled as Int, with the source
      comparisons lte/gte becoming integer comparisons;
    - monetary DOUBLE PRECISION columns are modelled as Int (exact
      arithmetic); none of the claims depends on fractional values;
    - a nullable column is an Option; Prisma comparison filters on a
      nullable column never match NULL, and JavaScript truthiness treats
      both null and 0 as falsy - both behaviours are modelled explicitly;
    - the relational store is an explicit record of lists (DB below); each
      handler is a pure function from the request and a DB to an outcome
      and the successor DB.
-/

set_option linter.unusedVariables false

namespace Y26

/-- Roles of the UserRole enum (CreateEnum in the schema DDL embedded in
src/server.ts). -/
inductive UserRole where
  | ADMIN
  | EVENT_TEAM_LEAD
  | WORKSHOP_TEAM_LEAD
  | FINANCE_TEAM
  | FACILITIES_TEAM
  | EVENT_COORDINATOR
  | WORKSHOP_COORDINATOR
deriving DecidableEq, Repr

/-- Values of the EventStatus and WorkshopStatus enums; the two enums are
identical, so one Lean type models both. -/
inductive BookStatus where
  | PENDING
  | APPROVED
  | REJECTED
  | COMPLETED
deriving DecidableEq, Repr

/-- Values of the ApprovalStatus enum. -/
inductive ApprovalStatus where
  | APPROVED
  | REJECTED
deriving DecidableEq, Repr

/-- A row of the users table (columns the claims need). -/
structure User where
  id : Nat
  name : String
  email : String
  role : UserRole
  isActive : Bool
deriving DecidableEq, Repr

/-- A row of the events or workshops table. The two tables have the same
shape; the columns modelled are the ones the handlers under verification
read or write (id, title, status, creatorId, coordinatorId, venueId,
startDate, endDate, description). -/
structure Bookable where
  id : Nat
  title : String
  status : BookStatus
  creatorId : Nat
  coordinatorId : Option Nat
  venueId : Option Nat
  startDate : Option Int
  endDate : Option Int
  description : Option String
deriving DecidableEq, Repr

/-- A row of the venues table (only resolution by id matters here). -/
structure Venue where
  id : Nat
  name : String
deriving DecidableEq, Repr

/-- A row of the budgets or workshop_budgets table; bookableId stands for
the eventId (respectively workshopId) column. amount is the requested
amount; approvedAmount is nullable. -/
structure Budget where
  bookableId : Nat
  categoryId : Nat
  amount : Int
  sponsorAmount : Int
  approvedAmount : Option Int
  remarks : Option String
deriving DecidableEq, Repr

/-- A row of the expenses or workshop_expenses table; bookableId stands for
the eventId (respectively workshopId) column. -/
structure Expense where
  bookableId : Nat
  categoryId : Nat
  amount : Int
deriving DecidableEq, Repr

/-- A row of the budget_approvals or workshop_budget_approvals table. -/
structure BudgetApproval where
  bookableId : Nat
  reviewerId : Nat
  status : ApprovalStatus
  remarks : String
deriving DecidableEq, Repr

/-- A row of the activity_logs table as written by the venue-assignment
handlers: oldValues and newValues hold the prior and the newly assigned
venue id. -/
structure ActivityLog where
  action : String
  entity : String
  entityId : Nat
  oldVenueId : Option Nat
  newVenueId : Option Nat
  userId : Nat
deriving DecidableEq, Repr

/-- The relational store: one list per table the claims touch. -/
structure DB where
  users : List User
  events : List Bookable
  workshops : List Bookable
  venues : List Venue
  budgets : List Budget
  workshopBudgets : List Budget
  expenses : List Expense
  workshopExpenses : List Expense
  budgetApprovals : List BudgetApproval
  workshopBudgetApprovals : List BudgetApproval
  activityLogs : List ActivityLog
deriving DecidableEq, Repr

/-- JavaScript a || b on a nullable number: both null and 0 are falsy, so
the fallback b is taken for null and for 0. -/
def jsOrNum (a : Option Int) (b : Int) : Int :=
  match a with
  | some v => if v = 0 then b else v
  | none => b

/-- One element of the JSON array returned by the summary endpoints. The
category object of the source is represented by its id. -/
structure SummaryEntry where
  categoryId : Nat
  budgetAmount : Int
  totalExpense : Int
  remaining : Int
  expenseCount : Nat
deriving DecidableEq, Repr

/-- Body of the summary computation shared textually by
src/routes/expenses.ts (GET /event/:eventId/summary) and
src/routes/workshop-expenses.ts (GET /workshop/:workshopId/summary):
for each budget row, filter the expenses of the same category, reduce
their amounts, and report budgetAmount as approvedAmount || amount. -/
def summaryOf (budgets : List Budget) (expenses : List Expense) : List SummaryEntry :=
  budgets.map (fun b =>
    let categoryExpenses := expenses.filter (fun e => e.categoryId == b.categoryId)
    let totalExpense := categoryExpenses.foldl (fun s e => s + e.amount) 0
    { categoryId := b.categoryId
      budgetAmount := jsOrNum b.approvedAmount b.amount
      totalExpense := totalExpense
      remaining := jsOrNum b.approvedAmount b.amount - totalExpense
      expenseCount := categoryExpenses.length })

/-- GET /event/:eventId/summary (src/routes/expenses.ts): both queries
filter by the event id, then the shared mapping runs. -/
def eventExpenseSummary (db : DB) (eventId : Nat) : List SummaryEntry :=
  summaryOf (db.budgets.filter (fun b => b.bookableId == eventId))
            (db.expenses.filter (fun e => e.bookableId == eventId))

/-- GET /workshop/:workshopId/summary (src/routes/workshop-expenses.ts). -/
def workshopExpenseSummary (db : DB) (workshopId : Nat) : List SummaryEntry :=
  summaryOf (db.workshopBudgets.filter (fun b => b.bookableId == workshopId))
            (db.workshopExpenses.filter (fun e => e.bookableId == workshopId))

/-- Rendering of claim C4 exactly as the spec words it: budgetAmount is
approvedAmount if present (in particular also when it is present and 0),
else the requested amount; totalExpense is the sum of amounts over the
same-category expense rows; remaining is the difference with no floor;
expenseCount counts the same-category rows. Written independently of the
source (getD, map-sum, countP) for comparison with summaryOf. -/
def specSummaryOf (budgets : List Budget) (expenses : List Expense) : List SummaryEntry :=
  budgets.map (fun b =>
    let budgetAmount := b.approvedAmount.getD b.amount
    let totalExpense := ((expenses.filter (fun e => e.categoryId == b.categoryId)).map (fun e => e.amount)).sum
    { categoryId := b.categoryId
      budgetAmount := budgetAmount
      totalExpense := totalExpense
      remaining := budgetAmount - totalExpense
      expenseCount := expenses.countP (fun e => e.categoryId == b.categoryId) })

/-- Amended description of the budget figure: the source falls back to the
requested amount not only when approvedAmount is absent but also when it is
present and equal to 0 (JavaScript falsiness of 0). -/
def amendedBudgetAmount (b : Budget) : Int :=
  match b.approvedAmount with
  | some v => if v ≠ 0 then v else b.amount
  | none => b.amount

/-- Claim C4 as amended: identical to the spec rendering except that the
budget figure is amendedBudgetAmount. -/
def amendedSpecSummaryOf (budgets : List Budget) (expenses : List Expense) : List SummaryEntry :=
  budgets.map (fun b =>
    let budgetAmount := amendedBudgetAmount b
    let totalExpense := ((expenses.filter (fun e => e.categoryId == b.categoryId)).map (fun e => e.amount)).sum
    { categoryId := b.categoryId
      budgetAmount := budgetAmount
      totalExpense := totalExpense
      remaining := budgetAmount - totalExpense
      expenseCount := expenses.countP (fun e => e.categoryId == b.categoryId) })

/-- Modelled from the spec: the authenticate/authorize middleware module
(imported as ../middleware/auth) is not in the source tree; section 4.4 of
the spec describes mutation authorization as a static role allow-list per
operation, so authorize passes exactly when the caller role is in the
route's list. -/
def authorize (allowed : List UserRole) (role : UserRole) : Bool :=
  allowed.contains role

/-- One element of the budgetAdjustments array of the review request. A
missing approvedAmount field leaves the column untouched (Prisma skips an
undefined field); sponsorAmount is written as sponsorAmount || 0. -/
structure Adjustment where
  categoryId : Nat
  approvedAmount : Option Int
  sponsorAmount : Option Int
deriving DecidableEq, Repr

/-- Effect of one prisma.budget.update keyed by (eventId, categoryId) on a
single row: on the matching row, approvedAmount is set when supplied and
sponsorAmount becomes adjustment.sponsorAmount || 0; other rows are
untouched. -/
def adjustBudgetRow (eventId : Nat) (adj : Adjustment) (b : Budget) : Budget :=
  if b.bookableId == eventId && b.categoryId == adj.categoryId then
    { b with
      approvedAmount := match adj.approvedAmount with
        | some v => some v
        | none => b.approvedAmount
      sponsorAmount := jsOrNum adj.sponsorAmount 0 }
  else b

/-- All adjustment updates of the review request applied to the budgets
table. -/
def applyAdjustments (budgets : List Budget) (eventId : Nat) (adjs : List Adjustment) :
    List Budget :=
  adjs.foldl (fun bs adj => bs.map (adjustBudgetRow eventId adj)) budgets

/-- Whether prisma.budget.update would find the row an adjustment is keyed
to; a missing row makes the update throw. -/
def adjustmentResolves (budgets : List Budget) (eventId : Nat) (adj : Adjustment) : Bool :=
  budgets.any (fun b => b.bookableId == eventId && b.categoryId == adj.categoryId)

/-- Event status written by the review handler:
status === APPROVED ? EventStatus.APPROVED : EventStatus.REJECTED. -/
def statusOfDecision : ApprovalStatus → BookStatus
  | .APPROVED => .APPROVED
  | .REJECTED => .REJECTED

inductive ReviewOutcome where
  | forbidden
  | notFound
  | serverError
  | ok (row : BudgetApproval)
deriving DecidableEq, Repr

/-- POST /event/:eventId/approve (src/routes/budgets.ts). After the role
gate and the event lookup the handler: applies the optional budget
adjustments, inserts one BudgetApproval row, and overwrites the event
status from the decision - three separate awaits, in that order, with no
wrapping transaction. The serverError branch (an adjustment keyed to a
missing budget row makes its update throw inside Promise.all) keeps the
adjustments whose rows resolve, matching independently committing updates. -/
def reviewBudget (db : DB) (eventId : Nat) (role : UserRole) (reviewerId : Nat)
    (decision : ApprovalStatus) (remarks : String) (budgetAdjustments : List Adjustment) :
    ReviewOutcome × DB :=
  if !(authorize [UserRole.FINANCE_TEAM, UserRole.ADMIN] role) then (.forbidden, db)
  else
    match db.events.find? (fun e => e.id == eventId) with
    | none => (.notFound, db)
    | some _ =>
      if budgetAdjustments.all (adjustmentResolves db.budgets eventId) then
        let db1 := { db with budgets := applyAdjustments db.budgets eventId budgetAdjustments }
        let row : BudgetApproval :=
          { bookableId := eventId, reviewerId := reviewerId,
            status := decision, remarks := remarks }
        let db2 := { db1 with budgetApprovals := db1.budgetApprovals ++ [row] }
        let db3 := { db2 with
          events := db2.events.map (fun e =>
            if e.id == eventId then { e with status := statusOfDecision decision } else e) }
        (.ok row, db3)
      else
        let resolved := budgetAdjustments.filter (adjustmentResolves db.budgets eventId)
        (.serverError, { db with budgets := applyAdjustments db.budgets eventId resolved })

/-- State observable when only the first k of the three database writes of
the review handler commit and the handler then aborts: the source issues
them as separate sequential awaits with no prisma transaction, so each
write commits on its own. Write 1 is the budget adjustments, write 2 the
BudgetApproval insert, write 3 the event status update. -/
def reviewBudgetAfterWrites (db : DB) (eventId : Nat) (reviewerId : Nat)
    (decision : ApprovalStatus) (remarks : String) (adjs : List Adjustment) (k : Nat) : DB :=
  let db1 :=
    if 1 ≤ k then { db with budgets := applyAdjustments db.budgets eventId adjs } else db
  let db2 :=
    if 2 ≤ k then
      { db1 with budgetApprovals := db1.budgetApprovals ++
          [{ bookableId := eventId, reviewerId := reviewerId,
             status := decision, remarks := remarks }] }
    else db1
  if 3 ≤ k then
    { db2 with events := db2.events.map (fun e =>
        if e.id == eventId then { e with status := statusOfDecision decision } else e) }
  else db2

/-- Prisma filter startDate lte x (respectively gte) on a nullable
column: a row whose column is NULL never satisfies the comparison. -/
def optLte (d : Option Int) (x : Int) : Bool :=
  match d with
  | some v => decide (v ≤ x)
  | none => false

def optGte (d : Option Int) (x : Int) : Bool :=
  match d with
  | some v => decide (x ≤ v)
  | none => false

/-- The three-way OR of the conflict where-clause, for candidate interval
s1..e1 against an existing row: the existing interval contains s1, or it
contains e1, or it lies inside the candidate interval. -/
def overlapWhere (s1 e1 : Int) (r : Bookable) : Bool :=
  (optLte r.startDate s1 && optGte r.endDate s1) ||
  (optLte r.startDate e1 && optGte r.endDate e1) ||
  (optGte r.startDate s1 && optLte r.endDate e1)

/-- The findMany where-clause of the conflict check: same venue, exclusion
of the candidate's own row when querying the candidate's own table
(excludeId is some id there and none for the other kind, exactly as the
source includes or omits the id not-filter), status APPROVED or PENDING,
and the three-way overlap clause. -/
def venueConflictQuery (rows : List Bookable) (venueId : Nat) (excludeId : Option Nat)
    (s1 e1 : Int) : List Bookable :=
  rows.filter (fun r =>
    r.venueId == some venueId &&
    (match excludeId with
     | some i => r.id != i
     | none => true) &&
    (r.status == .APPROVED || r.status == .PENDING) &&
    overlapWhere s1 e1 r)

/-- Creator name attached to a conflicting row: creator?.name || the empty
string, resolved against the users table. -/
def creatorName (users : List User) (r : Bookable) : String :=
  match users.find? (fun u => u.id == r.creatorId) with
  | some u => u.name
  | none => ""

/-- One element of the conflicts array of the 409 response: title,
interval, creator name. -/
structure ConflictDetail where
  title : String
  startDate : Option Int
  endDate : Option Int
  creator : String
deriving DecidableEq, Repr

def conflictDetail (users : List User) (r : Bookable) : ConflictDetail :=
  { title := r.title, startDate := r.startDate, endDate := r.endDate,
    creator := creatorName users r }

inductive AssignOutcome where
  | forbidden
  | badRequest
  | bookableNotFound
  | preconditionFailed
  | venueNotFound
  | conflict (conflicts : List ConflictDetail)
  | ok (venueId : Nat)
deriving DecidableEq, Repr

/-- POST /:id/assign-venue on the events router. Order of the source:
role gate, missing venueId is a 400, event lookup (404), status gate
(400 unless APPROVED), venue lookup (404); then, when both candidate
dates are present, the conflict query against other events (excluding the
candidate row itself) and - only if it is empty - the conflict query
against workshops; a nonempty query returns 409 with the mapped details
and writes nothing; otherwise the event's venueId is written and one
activity-log row recording prior and new venue id is appended. -/
def assignVenueToEvent (db : DB) (id : Nat) (venueIdReq : Option Nat)
    (role : UserRole) (userId : Nat) : AssignOutcome × DB :=
  if !(authorize [UserRole.ADMIN, UserRole.FACILITIES_TEAM] role) then (.forbidden, db)
  else
    match venueIdReq with
    | none => (.badRequest, db)
    | some venueId =>
      match db.events.find? (fun e => e.id == id) with
      | none => (.bookableNotFound, db)
      | some event =>
        if event.status != .APPROVED then (.preconditionFailed, db)
        else
          match db.venues.find? (fun v => v.id == venueId) with
          | none => (.venueNotFound, db)
          | some _ =>
            let sameKind :=
              match event.startDate, event.endDate with
              | some s1, some e1 => venueConflictQuery db.events venueId (some id) s1 e1
              | _, _ => []
            if !sameKind.isEmpty then (.conflict (sameKind.map (conflictDetail db.users)), db)
            else
              let otherKind :=
                match event.startDate, event.endDate with
                | some s1, some e1 => venueConflictQuery db.workshops venueId none s1 e1
                | _, _ => []
              if !otherKind.isEmpty then (.conflict (otherKind.map (conflictDetail db.users)), db)
              else
                (.ok venueId,
                 { db with
                    events := db.events.map (fun e =>
                      if e.id == id then { e with venueId := some venueId } else e)
                    activityLogs := db.activityLogs ++
                      [{ action := "ASSIGN_VENUE", entity := "Event", entityId := id,
                         oldVenueId := event.venueId, newVenueId := some venueId,
                         userId := userId }] })

/-- POST /:id/assign-venue on the workshops router: the exact dual - same
gates, the same-kind query runs over workshops (excluding the candidate
row) and the other-kind query over events (no exclusion). -/
def assignVenueToWorkshop (db : DB) (id : Nat) (venueIdReq : Option Nat)
    (role : UserRole) (userId : Nat) : AssignOutcome × DB :=
  if !(authorize [UserRole.ADMIN, UserRole.FACILITIES_TEAM] role) then (.forbidden, db)
  else
    match venueIdReq with
    | none => (.badRequest, db)
    | some venueId =>
      match db.workshops.find? (fun w => w.id == id) with
      | none => (.bookableNotFound, db)
      | some workshop =>
        if workshop.status != .APPROVED then (.preconditionFailed, db)
        else
          match db.venues.find? (fun v => v.id == venueId) with
          | none => (.venueNotFound, db)
          | some _ =>
            let sameKind :=
              match workshop.startDate, workshop.endDate with
              | some s1, some e1 => venueConflictQuery db.workshops venueId (some id) s1 e1
              | _, _ => []
            if !sameKind.isEmpty then (.conflict (sameKind.map (conflictDetail db.users)), db)
            else
              let otherKind :=
                match workshop.startDate, workshop.endDate with
                | some s1, some e1 => venueConflictQuery db.events venueId none s1 e1
                | _, _ => []
              if !otherKind.isEmpty then (.conflict (otherKind.map (conflictDetail db.users)), db)
              else
                (.ok venueId,
                 { db with
                    workshops := db.workshops.map (fun w =>
                      if w.id == id then { w with venueId := some venueId } else w)
                    activityLogs := db.activityLogs ++
                      [{ action := "ASSIGN_VENUE", entity := "Workshop", entityId := id,
                         oldVenueId := workshop.venueId, newVenueId := some venueId,
                         userId := userId }] })

/-- Exclusion clause of the spec-side conflict predicate, mirroring the
optional id not-filter. -/
def exclPred (excludeId : Option Nat) (r : Bookable) : Prop :=
  match excludeId with
  | some i => r.id ≠ i
  | none => True

/-- Spec-side conflict predicate of claim C1: another bookable assigned
the same venue, with status Approved or Pending, whose interval s2..e2
satisfies the single inclusive-overlap test s1 le e2 and s2 le e1. -/
def conflictPred (venueId : Nat) (excludeId : Option Nat) (s1 e1 : Int) (r : Bookable) : Prop :=
  r.venueId = some venueId ∧ exclPred excludeId r ∧
  (r.status = .APPROVED ∨ r.status = .PENDING) ∧
  ∃ s2 e2, r.startDate = some s2 ∧ r.endDate = some e2 ∧ s1 ≤ e2 ∧ s2 ≤ e1

/-- All rows of a table carry well-formed intervals: whenever both dates
are present, start is not after end. -/
def datesWellFormed (rows : List Bookable) : Bool :=
  rows.all (fun r =>
    match r.startDate, r.endDate with
    | some s, some e => decide (s ≤ e)
    | _, _ => true)

/-- Fields of the PUT /:id request body the embedding models, from the
allowed-fields list of the source (title, description, startDate, endDate,
venueId, coordinatorEmail; the remaining allowed columns type, venue,
startTime and endTime follow the same merge rule and are omitted). A
present field is written; an absent one leaves the column unchanged. -/
structure EventUpdate where
  title : Option String
  description : Option String
  coordinatorEmail : Option String
  startDate : Option Int
  endDate : Option Int
  venueId : Option Nat
deriving DecidableEq, Repr

inductive UpdateOutcome where
  | notFound
  | accessDenied
  | cannotEdit
  | coordinatorNotFound
  | ok
deriving DecidableEq, Repr

/-- Merge of the provided fields onto the row, plus the coordinator id
resolved from coordinatorEmail when one was supplied. -/
def applyEventUpdate (e : Bookable) (u : EventUpdate) (coordinatorId : Option Nat) : Bookable :=
  { e with
    title := u.title.getD e.title
    description := match u.description with
      | some d => some d
      | none => e.description
    startDate := match u.startDate with
      | some d => some d
      | none => e.startDate
    endDate := match u.endDate with
      | some d => some d
      | none => e.endDate
    venueId := match u.venueId with
      | some v => some v
      | none => e.venueId
    coordinatorId := match coordinatorId with
      | some c => some c
      | none => e.coordinatorId }

/-- PUT /:id on the events router: only authenticate guards the route, so
a caller of any role reaches it; a team-lead caller must own the event,
and only a team-lead caller is stopped by the status guard (PENDING or
REJECTED required - the 400 reads Cannot edit approved or completed
events); coordinatorEmail, when present, must resolve to an active
event-coordinator user, else 400. -/
def updateEvent (db : DB) (id : Nat) (role : UserRole) (userId : Nat) (u : EventUpdate) :
    UpdateOutcome × DB :=
  match db.events.find? (fun e => e.id == id) with
  | none => (.notFound, db)
  | some existingEvent =>
    if role == .EVENT_TEAM_LEAD && existingEvent.creatorId != userId then
      (.accessDenied, db)
    else if role == .EVENT_TEAM_LEAD && existingEvent.status != .PENDING &&
        existingEvent.status != .REJECTED then
      (.cannotEdit, db)
    else
      match u.coordinatorEmail with
      | some em =>
        match db.users.find? (fun usr =>
            usr.email == em && usr.role == .EVENT_COORDINATOR && usr.isActive) with
        | none => (.coordinatorNotFound, db)
        | some c =>
          (.ok, { db with events := db.events.map (fun e =>
            if e.id == id then applyEventUpdate e u (some c.id) else e) })
      | none =>
        (.ok, { db with events := db.events.map (fun e =>
          if e.id == id then applyEventUpdate e u none else e) })

/-- GET / on the events router: the whereClause is creatorId for a
team-lead caller, coordinatorId for a coordinator caller, and empty for
every other role. -/
def listEvents (db : DB) (role : UserRole) (userId : Nat) : List Bookable :=
  if role == .EVENT_TEAM_LEAD then
    db.events.filter (fun e => e.creatorId == userId)
  else if role == .EVENT_COORDINATOR then
    db.events.filter (fun e => e.coordinatorId == some userId)
  else
    db.events

inductive GetOutcome where
  | notFound
  | accessDenied
  | ok (e : Bookable)
deriving DecidableEq, Repr

/-- GET /:id on the events router: 404 when unresolved; access denied for
a team-lead caller who is not the creator or a coordinator caller who is
not the assigned coordinator; every other role reads the event. -/
def getEventById (db : DB) (id : Nat) (role : UserRole) (userId : Nat) : GetOutcome :=
  match db.events.find? (fun e => e.id == id) with
  | none => .notFound
  | some event =>
    if role == .EVENT_TEAM_LEAD && event.creatorId != userId then .accessDenied
    else if role == .EVENT_COORDINATOR && event.coordinatorId != some userId then .accessDenied
    else .ok event

/-- Concrete approved event owned by user 10, and an update request
carrying only a new title, for the update-guard counterexample and
witness. -/
def c3Event : Bookable :=
  { id := 1, title := "E", status := .APPROVED, creatorId := 10, coordinatorId := none,
    venueId := none, startDate := none, endDate := none, description := none }

def c3DB : DB :=
  { users := [], events := [c3Event], workshops := [], venues := [],
    budgets := [], workshopBudgets := [], expenses := [], workshopExpenses := [],
    budgetApprovals := [], workshopBudgetApprovals := [], activityLogs := [] }

def c3Upd : EventUpdate :=
  { title := some "edited", description := none, coordinatorEmail := none,
    startDate := none, endDate := none, venueId := none }

/-- Concrete world for the venue-assignment witnesses: venue 5 already
holds approved event B over 10..20; event A (approved, 15..25) is the
candidate. -/
def vUser : User :=
  { id := 10, name := "lead", email := "lead", role := .EVENT_TEAM_LEAD, isActive := true }

def vEventA : Bookable :=
  { id := 1, title := "A", status := .APPROVED, creatorId := 10, coordinatorId := none,
    venueId := none, startDate := some 15, endDate := some 25, description := none }

def vEventB : Bookable :=
  { id := 2, title := "B", status := .APPROVED, creatorId := 10, coordinatorId := none,
    venueId := some 5, startDate := some 10, endDate := some 20, description := none }

def vVenue : Venue := { id := 5, name := "Hall" }

def vDB : DB :=
  { users := [vUser], events := [vEventA, vEventB], workshops := [], venues := [vVenue],
    budgets := [], workshopBudgets := [], expenses := [], workshopExpenses := [],
    budgetApprovals := [], workshopBudgetApprovals := [], activityLogs := [] }

/-- A concrete event used by witnesses: id 1, created by user 10, status
COMPLETED (to exhibit that reviews apply to every status). -/
def wEvent : Bookable :=
  { id := 1, title := "E1", status := .COMPLETED, creatorId := 10,
    coordinatorId := none, venueId := none, startDate := none, endDate := none,
    description := none }

/-- A concrete store holding only wEvent, used by witnesses. -/
def wDB : DB :=
  { users := [], events := [wEvent], workshops := [], venues := [],
    budgets := [], workshopBudgets := [], expenses := [], workshopExpenses := [],
    budgetApprovals := [], workshopBudgetApprovals := [], activityLogs := [] }

/-- A budget row whose approvedAmount is present and equal to 0, with a
requested amount of 500: the summary code and the claim disagree on it. -/
def c4Budget : Budget :=
  { bookableId := 1, categoryId := 7, amount := 500, sponsorAmount := 0,
    approvedAmount := some 0, remarks := none }

/-- A budget row and an adjustment keyed to it, used to exhibit the
observable state after a storage failure between the review writes. -/
def c8Budget : Budget :=
  { bookableId := 1, categoryId := 2, amount := 500, sponsorAmount := 0,
    approvedAmount := none, remarks := none }

def c8DB : DB :=
  { users := [], events := [wEvent], workshops := [], venues := [],
    budgets := [c8Budget], workshopBudgets := [], expenses := [], workshopExpenses := [],
    budgetApprovals := [], workshopBudgetApprovals := [], activityLogs := [] }

def c8Adj : Adjustment :=
  { categoryId := 2, approvedAmount := some 100, sponsorAmount := none }

lemma foldl_add_amount (l : List Expense) (a : Int) :
    l.foldl (fun s e => s + e.amount) a = a + (l.map (fun e => e.amount)).sum := by
  induction l generalizing a with
  | nil => simp
  | cons x xs ih =>
    simp only [List.foldl_cons, List.map_cons, List.sum_cons, ih]
    ring

lemma jsOrNum_eq_amended (b : Budget) :
    jsOrNum b.approvedAmount b.amount = amendedBudgetAmount b := by
  cases h : b.approvedAmount with
  | none => simp [jsOrNum, amendedBudgetAmount, h]
  | some v =>
    by_cases hv : v = 0 <;> simp [jsOrNum, amendedBudgetAmount, h, hv]

lemma summaryOf_eq_amended (budgets : List Budget) (expenses : List Expense) :
    summaryOf budgets expenses = amendedSpecSummaryOf budgets expenses := by
  unfold summaryOf amendedSpecSummaryOf
  apply List.map_congr_left
  intro b _
  have hfold := foldl_add_amount (expenses.filter (fun e => e.categoryId == b.categoryId)) 0
  have hcount : (expenses.filter (fun e => e.categoryId == b.categoryId)).length
      = expenses.countP (fun e => e.categoryId == b.categoryId) := by
    simp [List.countP_eq_length_filter]
  simp only [hfold, jsOrNum_eq_amended, hcount, zero_add]

lemma find?_map_update (l : List Bookable) (i : Nat) (f : Bookable → Bookable)
    (hf : ∀ b, (f b).id = b.id) :
    (l.map (fun b => if b.id == i then f b else b)).find? (fun b => b.id == i)
      = (l.find? (fun b => b.id == i)).map f := by
  induction l with
  | nil => simp
  | cons x xs ih =>
    by_cases hx : x.id = i
    · simp [List.find?_cons, hx, hf]
    · have hbeq : (x.id == i) = false := by simp [hx]
      simp only [List.map_cons, List.find?_cons, hbeq, if_neg (by simp [hx] : ¬(x.id == i) = true)]
      simpa [hbeq] using ih

lemma datesWellFormed_mem {rows : List Bookable} {r : Bookable}
    (h : datesWellFormed rows = true) (hr : r ∈ rows) :
    ∀ s e, r.startDate = some s → r.endDate = some e → s ≤ e := by
  intro s e hs he
  have hall := List.all_eq_true.mp h r hr
  rw [hs, he] at hall
  exact of_decide_eq_true hall

lemma overlapWhere_dates {r : Bookable} {s1 e1 : Int} (h : overlapWhere s1 e1 r = true) :
    ∃ s2 e2, r.startDate = some s2 ∧ r.endDate = some e2 := by
  unfold overlapWhere optLte optGte at h
  rcases hs : r.startDate with _ | s2
  · rw [hs] at h
    simp at h
  · rcases he : r.endDate with _ | e2
    · rw [hs, he] at h
      simp at h
    · exact ⟨s2, e2, rfl, rfl⟩

/-- The three-way OR of the source where-clause agrees with the single
inclusive-overlap test on well-formed intervals. -/
lemma overlapWhere_iff {r : Bookable} {s1 e1 s2 e2 : Int}
    (hs : r.startDate = some s2) (he : r.endDate = some e2)
    (h1 : s1 ≤ e1) (h2 : s2 ≤ e2) :
    overlapWhere s1 e1 r = true ↔ (s1 ≤ e2 ∧ s2 ≤ e1) := by
  simp only [overlapWhere, optLte, optGte, hs, he, Bool.or_eq_true, Bool.and_eq_true,
    decide_eq_true_eq]
  omega

/-- The boolean filter of the conflict query holds of a row exactly when
the spec-side conflict predicate does, on well-formed intervals. -/
lemma conflictFilter_iff (venueId : Nat) (excludeId : Option Nat) (s1 e1 : Int)
    (r : Bookable) (h1 : s1 ≤ e1)
    (h2 : ∀ s e, r.startDate = some s → r.endDate = some e → s ≤ e) :
    (r.venueId == some venueId &&
     (match excludeId with
      | some i => r.id != i
      | none => true) &&
     (r.status == .APPROVED || r.status == .PENDING) &&
     overlapWhere s1 e1 r) = true
    ↔ conflictPred venueId excludeId s1 e1 r := by
  constructor
  · intro hp
    rw [Bool.and_eq_true, Bool.and_eq_true, Bool.and_eq_true] at hp
    obtain ⟨⟨⟨hv, hx⟩, hst⟩, hov⟩ := hp
    obtain ⟨s2, e2, hs, he⟩ := overlapWhere_dates hov
    refine ⟨eq_of_beq hv, ?_, by simpa using hst, s2, e2, hs, he, ?_, ?_⟩
    · cases excludeId with
      | none => trivial
      | some i => simpa [exclPred] using hx
    · exact ((overlapWhere_iff hs he h1 (h2 _ _ hs he)).mp hov).1
    · exact ((overlapWhere_iff hs he h1 (h2 _ _ hs he)).mp hov).2
  · rintro ⟨hv, hx, hst, s2, e2, hs, he, ho1, ho2⟩
    rw [Bool.and_eq_true, Bool.and_eq_true, Bool.and_eq_true]
    refine ⟨⟨⟨by simp [hv], ?_⟩, by rcases hst with h | h <;> simp [h]⟩,
      (overlapWhere_iff hs he h1 (h2 _ _ hs he)).mpr ⟨ho1, ho2⟩⟩
    cases excludeId with
    | none => rfl
    | some i => simpa [exclPred] using hx

/-- The conflict query is nonempty exactly when some row of the table
satisfies the spec-side conflict predicate, provided the candidate and all
stored intervals are well formed. -/
lemma venueConflictQuery_spec (rows : List Bookable) (venueId : Nat)
    (excludeId : Option Nat) (s1 e1 : Int)
    (h1 : s1 ≤ e1) (hwf : datesWellFormed rows = true) :
    venueConflictQuery rows venueId excludeId s1 e1 ≠ [] ↔
      ∃ r ∈ rows, conflictPred venueId excludeId s1 e1 r := by
  unfold venueConflictQuery
  constructor
  · intro hne
    obtain ⟨r, hrmem⟩ := List.exists_mem_of_ne_nil _ hne
    obtain ⟨hin, hp⟩ := List.mem_filter.mp hrmem
    exact ⟨r, hin, (conflictFilter_iff venueId excludeId s1 e1 r h1
      (datesWellFormed_mem hwf hin)).mp hp⟩
  · rintro ⟨r, hin, hpred⟩
    apply List.ne_nil_of_mem (a := r)
    exact List.mem_filter.mpr ⟨hin, (conflictFilter_iff venueId excludeId s1 e1 r h1
      (datesWellFormed_mem hwf hin)).mpr hpred⟩

/-- Shape of the event venue-assignment handler once the gates pass and
both candidate dates are present. -/
lemma assignVenueToEvent_core (db : DB) (id venueId userId : Nat) (role : UserRole)
    (event : Bookable) (venue : Venue) (s1 e1 : Int)
    (hrole : authorize [UserRole.ADMIN, UserRole.FACILITIES_TEAM] role = true)
    (hfind : db.events.find? (fun e => e.id == id) = some event)
    (hstatus : event.status = .APPROVED)
    (hvenue : db.venues.find? (fun v => v.id == venueId) = some venue)
    (hs : event.startDate = some s1) (he : event.endDate = some e1) :
    assignVenueToEvent db id (some venueId) role userId =
      (if !(venueConflictQuery db.events venueId (some id) s1 e1).isEmpty then
        (AssignOutcome.conflict
          ((venueConflictQuery db.events venueId (some id) s1 e1).map (conflictDetail db.users)), db)
       else if !(venueConflictQuery db.workshops venueId none s1 e1).isEmpty then
        (AssignOutcome.conflict
          ((venueConflictQuery db.workshops venueId none s1 e1).map (conflictDetail db.users)), db)
       else
        (AssignOutcome.ok venueId,
         { db with
            events := db.events.map (fun e =>
              if e.id == id then { e with venueId := some venueId } else e)
            activityLogs := db.activityLogs ++
              [{ action := "ASSIGN_VENUE", entity := "Event", entityId := id,
                 oldVenueId := event.venueId, newVenueId := some venueId,
                 userId := userId }] })) := by
  unfold assignVenueToEvent
  rw [hrole, hfind]
  dsimp only
  rw [hstatus, hvenue, hs, he]
  rfl

/-- Shape of the workshop venue-assignment handler once the gates pass and
both candidate dates are present. -/
lemma assignVenueToWorkshop_core (db : DB) (id venueId userId : Nat) (role : UserRole)
    (workshop : Bookable) (venue : Venue) (s1 e1 : Int)
    (hrole : authorize [UserRole.ADMIN, UserRole.FACILITIES_TEAM] role = true)
    (hfind : db.workshops.find? (fun w => w.id == id) = some workshop)
    (hstatus : workshop.status = .APPROVED)
    (hvenue : db.venues.find? (fun v => v.id == venueId) = some venue)
    (hs : workshop.startDate = some s1) (he : workshop.endDate = some e1) :
    assignVenueToWorkshop db id (some venueId) role userId =
      (if !(venueConflictQuery db.workshops venueId (some id) s1 e1).isEmpty then
        (AssignOutcome.conflict
          ((venueConflictQuery db.workshops venueId (some id) s1 e1).map (conflictDetail db.users)), db)
       else if !(venueConflictQuery db.events venueId none s1 e1).isEmpty then
        (AssignOutcome.conflict
          ((venueConflictQuery db.events venueId none s1 e1).map (conflictDetail db.users)), db)
       else
        (AssignOutcome.ok venueId,
         { db with
            workshops := db.workshops.map (fun w =>
              if w.id == id then { w with venueId := some venueId } else w)
            activityLogs := db.activityLogs ++
              [{ action := "ASSIGN_VENUE", entity := "Workshop", entityId := id,
                 oldVenueId := workshop.venueId, newVenueId := some venueId,
                 userId := userId }] })) := by
  unfold assignVenueToWorkshop
  rw [hrole, hfind]
  dsimp only
  rw [hstatus, hvenue, hs, he]
  rfl

/-- With a missing candidate date, both conflict queries are skipped and
the assignment succeeds outright (event side). -/
lemma assignVenueToEvent_nodates (db : DB) (id venueId userId : Nat) (role : UserRole)
    (event : Bookable) (venue : Venue)
    (hrole : authorize [UserRole.ADMIN, UserRole.FACILITIES_TEAM] role = true)
    (hfind : db.events.find? (fun e => e.id == id) = some event)
    (hstatus : event.status = .APPROVED)
    (hvenue : db.venues.find? (fun v => v.id == venueId) = some venue)
    (hdates : event.startDate = none ∨ event.endDate = none) :
    assignVenueToEvent db id (some venueId) role userId =
      (AssignOutcome.ok venueId,
       { db with
          events := db.events.map (fun e =>
            if e.id == id then { e with venueId := some venueId } else e)
          activityLogs := db.activityLogs ++
            [{ action := "ASSIGN_VENUE", entity := "Event", entityId := id,
               oldVenueId := event.venueId, newVenueId := some venueId,
               userId := userId }] }) := by
  unfold assignVenueToEvent
  rw [hrole, hfind]
  dsimp only
  rw [hstatus, hvenue]
  rcases hdates with h | h
  · rw [h]
    rfl
  · rcases hsd : event.startDate with _ | s1
    · rfl
    · rw [h]
      rfl

/-- With a missing candidate date, both conflict queries are skipped and
the assignment succeeds outright (workshop side). -/
lemma assignVenueToWorkshop_nodates (db : DB) (id venueId userId : Nat) (role : UserRole)
    (workshop : Bookable) (venue : Venue)
    (hrole : authorize [UserRole.ADMIN, UserRole.FACILITIES_TEAM] role = true)
    (hfind : db.workshops.find? (fun w => w.id == id) = some workshop)
    (hstatus : workshop.status = .APPROVED)
    (hvenue : db.venues.find? (fun v => v.id == venueId) = some venue)
    (hdates : workshop.startDate = none ∨ workshop.endDate = none) :
    assignVenueToWorkshop db id (some venueId) role userId =
      (AssignOutcome.ok venueId,
       { db with
          workshops := db.workshops.map (fun w =>
            if w.id == id then { w with venueId := some venueId } else w)
          activityLogs := db.activityLogs ++
            [{ action := "ASSIGN_VENUE", entity := "Workshop", entityId := id,
               oldVenueId := workshop.venueId, newVenueId := some venueId,
               userId := userId }] }) := by
  unfold assignVenueToWorkshop
  rw [hrole, hfind]
  dsimp only
  rw [hstatus, hvenue]
  rcases hdates with h | h
  · rw [h]
    rfl
  · rcases hsd : workshop.startDate with _ | s1
    · rfl
    · rw [h]
      rfl

/-- Membership in the conflict query yields membership in the table, the
venue condition, and the exclusion condition. -/
lemma mem_venueConflictQuery {rows : List Bookable} {venueId : Nat}
    {excludeId : Option Nat} {s1 e1 : Int} {r : Bookable}
    (h : r ∈ venueConflictQuery rows venueId excludeId s1 e1) :
    r ∈ rows ∧ r.venueId = some venueId ∧ exclPred excludeId r := by
  obtain ⟨hin, hp⟩ := List.mem_filter.mp h
  rw [Bool.and_eq_true, Bool.and_eq_true, Bool.and_eq_true] at hp
  obtain ⟨⟨⟨hv, hx⟩, hst⟩, hov⟩ := hp
  refine ⟨hin, eq_of_beq hv, ?_⟩
  cases excludeId with
  | none => trivial
  | some i => simpa [exclPred] using hx

/-- Either the assignment run (with gates passed) rejects with the mapped
details of a nonempty conflict query - the same-kind one, or the other-kind
one when the same-kind query is empty - and leaves the store untouched, or
it succeeds, writing the venue id and appending one audit row. -/
lemma assignVenueToEvent_cases (db : DB) (id venueId userId : Nat) (role : UserRole)
    (event : Bookable) (venue : Venue)
    (hrole : authorize [UserRole.ADMIN, UserRole.FACILITIES_TEAM] role = true)
    (hfind : db.events.find? (fun e => e.id == id) = some event)
    (hstatus : event.status = .APPROVED)
    (hvenue : db.venues.find? (fun v => v.id == venueId) = some venue) :
    (∃ s1 e1 q, event.startDate = some s1 ∧ event.endDate = some e1 ∧
      ((q = venueConflictQuery db.events venueId (some id) s1 e1 ∧ q ≠ []) ∨
       (venueConflictQuery db.events venueId (some id) s1 e1 = [] ∧
        q = venueConflictQuery db.workshops venueId none s1 e1 ∧ q ≠ [])) ∧
      assignVenueToEvent db id (some venueId) role userId
        = (AssignOutcome.conflict (q.map (conflictDetail db.users)), db)) ∨
    assignVenueToEvent db id (some venueId) role userId
      = (AssignOutcome.ok venueId,
         { db with
            events := db.events.map (fun e =>
              if e.id == id then { e with venueId := some venueId } else e)
            activityLogs := db.activityLogs ++
              [{ action := "ASSIGN_VENUE", entity := "Event", entityId := id,
                 oldVenueId := event.venueId, newVenueId := some venueId,
                 userId := userId }] }) := by
  rcases hsd : event.startDate with _ | s1
  · exact Or.inr (assignVenueToEvent_nodates db id venueId userId role event venue
      hrole hfind hstatus hvenue (Or.inl hsd))
  · rcases hed : event.endDate with _ | e1
    · exact Or.inr (assignVenueToEvent_nodates db id venueId userId role event venue
        hrole hfind hstatus hvenue (Or.inr hed))
    · have hcore := assignVenueToEvent_core db id venueId userId role event venue s1 e1
        hrole hfind hstatus hvenue hsd hed
      rcases hq1 : venueConflictQuery db.events venueId (some id) s1 e1 with _ | ⟨x, xs⟩
      · rcases hq2 : venueConflictQuery db.workshops venueId none s1 e1 with _ | ⟨y, ys⟩
        · rw [hq1, hq2] at hcore
          exact Or.inr hcore
        · rw [hq1, hq2] at hcore
          exact Or.inl ⟨s1, e1, y :: ys, rfl, rfl, Or.inr ⟨hq1, hq2.symm, by simp⟩, hcore⟩
      · rw [hq1] at hcore
        exact Or.inl ⟨s1, e1, x :: xs, rfl, rfl, Or.inl ⟨hq1.symm, by simp⟩, hcore⟩

/-- Dual of the previous lemma for the workshop handler. -/
lemma assignVenueToWorkshop_cases (db : DB) (id venueId userId : Nat) (role : UserRole)
    (workshop : Bookable) (venue : Venue)
    (hrole : authorize [UserRole.ADMIN, UserRole.FACILITIES_TEAM] role = true)
    (hfind : db.workshops.find? (fun w => w.id == id) = some workshop)
    (hstatus : workshop.status = .APPROVED)
    (hvenue : db.venues.find? (fun v => v.id == venueId) = some venue) :
    (∃ s1 e1 q, workshop.startDate = some s1 ∧ workshop.endDate = some e1 ∧
      ((q = venueConflictQuery db.workshops venueId (some id) s1 e1 ∧ q ≠ []) ∨
       (venueConflictQuery db.workshops venueId (some id) s1 e1 = [] ∧
        q = venueConflictQuery db.events venueId none s1 e1 ∧ q ≠ [])) ∧
      assignVenueToWorkshop db id (some venueId) role userId
        = (AssignOutcome.conflict (q.map (conflictDetail db.users)), db)) ∨
    assignVenueToWorkshop db id (some venueId) role userId
      = (AssignOutcome.ok venueId,
         { db with
            workshops := db.workshops.map (fun w =>
              if w.id == id then { w with venueId := some venueId } else w)
            activityLogs := db.activityLogs ++
              [{ action := "ASSIGN_VENUE", entity := "Workshop", entityId := id,
                 oldVenueId := workshop.venueId, newVenueId := some venueId,
                 userId := userId }] }) := by
  rcases hsd : workshop.startDate with _ | s1
  · exact Or.inr (assignVenueToWorkshop_nodates db id venueId userId role workshop venue
      hrole hfind hstatus hvenue (Or.inl hsd))
  · rcases hed : workshop.endDate with _ | e1
    · exact Or.inr (assignVenueToWorkshop_nodates db id venueId userId role workshop venue
        hrole hfind hstatus hvenue (Or.inr hed))
    · have hcore := assignVenueToWorkshop_core db id venueId userId role workshop venue s1 e1
        hrole hfind hstatus hvenue hsd hed
      rcases hq1 : venueConflictQuery db.workshops venueId (some id) s1 e1 with _ | ⟨x, xs⟩
      · rcases hq2 : venueConflictQuery db.events venueId none s1 e1 with _ | ⟨y, ys⟩
        · rw [hq1, hq2] at hcore
          exact Or.inr hcore
        · rw [hq1, hq2] at hcore
          exact Or.inl ⟨s1, e1, y :: ys, rfl, rfl, Or.inr ⟨hq1, hq2.symm, by simp⟩, hcore⟩
      · rw [hq1] at hcore
        exact Or.inl ⟨s1, e1, x :: xs, rfl, rfl, Or.inl ⟨hq1.symm, by simp⟩, hcore⟩

/-- Shared characterization of a successful review: the outcome is ok, the
approval history is the old history with exactly one new row appended, and
the reviewed event's status becomes the decision. -/
lemma reviewBudget_ok_spec (db : DB) (eventId : Nat) (role : UserRole) (reviewerId : Nat)
    (decision : ApprovalStatus) (remarks : String) (adjs : List Adjustment)
    (ev : Bookable)
    (hrole : authorize [UserRole.FINANCE_TEAM, UserRole.ADMIN] role = true)
    (hfind : db.events.find? (fun e => e.id == eventId) = some ev)
    (hadj : adjs.all (adjustmentResolves db.budgets eventId) = true) :
    (reviewBudget db eventId role reviewerId decision remarks adjs).fst
      = .ok { bookableId := eventId, reviewerId := reviewerId,
              status := decision, remarks := remarks } ∧
    (reviewBudget db eventId role reviewerId decision remarks adjs).snd.budgetApprovals
      = db.budgetApprovals ++
        [{ bookableId := eventId, reviewerId := reviewerId,
           status := decision, remarks := remarks }] ∧
    (reviewBudget db eventId role reviewerId decision remarks adjs).snd.budgetApprovals.length
      = db.budgetApprovals.length + 1 ∧
    (reviewBudget db eventId role reviewerId decision remarks adjs).snd.budgetApprovals.take
        db.budgetApprovals.length
      = db.budgetApprovals ∧
    (reviewBudget db eventId role reviewerId decision remarks adjs).snd.events.find?
        (fun e => e.id == eventId)
      = some { ev with status := statusOfDecision decision } := by
  have hf : ∀ b : Bookable, ({ b with status := statusOfDecision decision } : Bookable).id = b.id :=
    fun b => rfl
  have hmain : reviewBudget db eventId role reviewerId decision remarks adjs
      = (ReviewOutcome.ok
          { bookableId := eventId, reviewerId := reviewerId,
            status := decision, remarks := remarks },
         { db with
            budgets := applyAdjustments db.budgets eventId adjs
            budgetApprovals := db.budgetApprovals ++
              [{ bookableId := eventId, reviewerId := reviewerId,
                 status := decision, remarks := remarks }]
            events := db.events.map (fun e =>
              if e.id == eventId then { e with status := statusOfDecision decision } else e) }) := by
    unfold reviewBudget
    rw [hrole, hfind, hadj]
    rfl
  rw [hmain]
  refine ⟨rfl, rfl, by simp, by simp [List.take_left], ?_⟩
  show (db.events.map (fun e =>
      if e.id == eventId then { e with status := statusOfDecision decision } else e)).find?
      (fun e => e.id == eventId) = some { ev with status := statusOfDecision decision }
  rw [find?_map_update db.events eventId (fun e =>
    { e with status := statusOfDecision decision }) hf, hfind]
  rfl

/-- C4 counterexample: the claim says budgetAmount is approvedAmount
whenever it is present; on a budget row with approvedAmount present and
equal to 0 and requested amount 500 (and no expenses), the source computes
approvedAmount || amount, which is 500, while the claim demands 0. So the
summary does not match the claim pointwise at this input. -/
theorem C4_counterexample_zero_approved :
    summaryOf [c4Budget] [] ≠ specSummaryOf [c4Budget] [] ∧
    (summaryOf [c4Budget] []).map (fun s => s.budgetAmount) = [500] ∧
    (specSummaryOf [c4Budget] []).map (fun s => s.budgetAmount) = [0] := by
  refine ⟨by decide, by decide, by decide⟩

/-- C2: every reviewBudget call on an existing bookable appends exactly one
new BudgetApproval row carrying the given decision and reviewer, leaves all
previously recorded rows unchanged (history length grows by one and the old
rows stay an unchanged initial segment), and sets the bookable status to
Approved when the decision is Approved and to Rejected when it is Rejected;
reviews are legal after any prior history, so successive reviews each
append and the latest dictates the status. -/
theorem C2_review_appends (db : DB) (eventId : Nat) (role : UserRole) (reviewerId : Nat)
    (decision : ApprovalStatus) (remarks : String) (adjs : List Adjustment)
    (ev : Bookable)
    (hrole : authorize [UserRole.FINANCE_TEAM, UserRole.ADMIN] role = true)
    (hfind : db.events.find? (fun e => e.id == eventId) = some ev)
    (hadj : adjs.all (adjustmentResolves db.budgets eventId) = true) :
    (reviewBudget db eventId role reviewerId decision remarks adjs).fst
      = .ok { bookableId := eventId, reviewerId := reviewerId,
              status := decision, remarks := remarks } ∧
    (reviewBudget db eventId role reviewerId decision remarks adjs).snd.budgetApprovals
      = db.budgetApprovals ++
        [{ bookableId := eventId, reviewerId := reviewerId,
           status := decision, remarks := remarks }] ∧
    (reviewBudget db eventId role reviewerId decision remarks adjs).snd.budgetApprovals.length
      = db.budgetApprovals.length + 1 ∧
    (reviewBudget db eventId role reviewerId decision remarks adjs).snd.budgetApprovals.take
        db.budgetApprovals.length
      = db.budgetApprovals ∧
    (reviewBudget db eventId role reviewerId decision remarks adjs).snd.events.find?
        (fun e => e.id == eventId)
      = some { ev with status := statusOfDecision decision } :=
  reviewBudget_ok_spec db eventId role reviewerId decision remarks adjs ev hrole hfind hadj

/-- C2 witness: a concrete finance review of the stored event appends one
approval row and the history grows by one. -/
theorem C2_review_appends_witness :
    (reviewBudget wDB 1 .FINANCE_TEAM 9 .APPROVED "fine" []).snd.budgetApprovals.length
      = wDB.budgetApprovals.length + 1 :=
  (C2_review_appends wDB 1 .FINANCE_TEAM 9 .APPROVED "fine" [] wEvent
    (by decide) (by decide) (by decide)).2.2.1

/-- C10: reviewBudget imposes no precondition on the current status: for
every current status st (Pending, Approved, Rejected, or Completed alike),
a finance or admin call on an existing bookable succeeds, appends a
BudgetApproval row, and overwrites the status with the new decision;
Completed is not terminal with respect to reviews. -/
theorem C10_no_status_precondition (db : DB) (eventId : Nat) (role : UserRole)
    (reviewerId : Nat) (decision : ApprovalStatus) (remarks : String)
    (st : BookStatus) (ev : Bookable)
    (hrole : role = UserRole.FINANCE_TEAM ∨ role = UserRole.ADMIN)
    (hfind : db.events.find? (fun e => e.id == eventId) = some ev)
    (hst : ev.status = st) :
    (reviewBudget db eventId role reviewerId decision remarks []).fst
      = .ok { bookableId := eventId, reviewerId := reviewerId,
              status := decision, remarks := remarks } ∧
    (reviewBudget db eventId role reviewerId decision remarks []).snd.budgetApprovals
      = db.budgetApprovals ++
        [{ bookableId := eventId, reviewerId := reviewerId,
           status := decision, remarks := remarks }] ∧
    (reviewBudget db eventId role reviewerId decision remarks []).snd.events.find?
        (fun e => e.id == eventId)
      = some { ev with status := statusOfDecision decision } := by
  have hrole' : authorize [UserRole.FINANCE_TEAM, UserRole.ADMIN] role = true := by
    rcases hrole with h | h <;> simp [authorize, h]
  have h := reviewBudget_ok_spec db eventId role reviewerId decision remarks [] ev hrole' hfind
    (by simp [List.all_nil])
  exact ⟨h.1, h.2.1, h.2.2.2.2⟩

/-- C10 witness: a review of the COMPLETED event succeeds and overwrites
its status to REJECTED. -/
theorem C10_no_status_precondition_witness :
    (reviewBudget wDB 1 .ADMIN 9 .REJECTED "no" []).snd.events.find?
        (fun e => e.id == 1)
      = some { wEvent with status := statusOfDecision .REJECTED } :=
  (C10_no_status_precondition wDB 1 .ADMIN 9 .REJECTED "no" .COMPLETED wEvent
    (Or.inr rfl) (by decide) (by decide)).2.2

/-- C8 counterexample: the review writes are not atomic. In the run where
the first write (the budget adjustments) commits and the second write (the
BudgetApproval insert) fails, the observable state still carries the
adjusted budget row while no approval row and no status change exist - one
write failed, yet another write remains applied, contradicting the claim
that none would. -/
theorem C8_counterexample_midfailure :
    (reviewBudgetAfterWrites c8DB 1 9 .APPROVED "ok" [c8Adj] 1).budgets ≠ c8DB.budgets ∧
    (reviewBudgetAfterWrites c8DB 1 9 .APPROVED "ok" [c8Adj] 1).budgetApprovals
      = c8DB.budgetApprovals ∧
    (reviewBudgetAfterWrites c8DB 1 9 .APPROVED "ok" [c8Adj] 1).events = c8DB.events ∧
    reviewBudgetAfterWrites c8DB 1 9 .APPROVED "ok" [c8Adj] 1 ≠ c8DB := by
  refine ⟨by decide, by decide, by decide, by decide⟩

/-- Claim C8 as amended: the review handler issues its three writes
(budget adjustments, BudgetApproval insert, event status update) as
separate sequential commits with no wrapping transaction, so a failure
after the k-th write leaves exactly the first k writes applied and a
subsequent read observes the partially applied state; only the complete
three-write run coincides with the successful handler. -/
theorem C8_sequential_writes_amended (db : DB) (eventId reviewerId : Nat)
    (decision : ApprovalStatus) (remarks : String) (adjs : List Adjustment) :
    (reviewBudgetAfterWrites db eventId reviewerId decision remarks adjs 1).budgets
      = applyAdjustments db.budgets eventId adjs ∧
    (reviewBudgetAfterWrites db eventId reviewerId decision remarks adjs 1).budgetApprovals
      = db.budgetApprovals ∧
    (reviewBudgetAfterWrites db eventId reviewerId decision remarks adjs 1).events
      = db.events ∧
    (reviewBudgetAfterWrites db eventId reviewerId decision remarks adjs 2).budgets
      = applyAdjustments db.budgets eventId adjs ∧
    (reviewBudgetAfterWrites db eventId reviewerId decision remarks adjs 2).budgetApprovals
      = db.budgetApprovals ++
        [{ bookableId := eventId, reviewerId := reviewerId,
           status := decision, remarks := remarks }] ∧
    (reviewBudgetAfterWrites db eventId reviewerId decision remarks adjs 2).events
      = db.events ∧
    (∀ role ev,
      authorize [UserRole.FINANCE_TEAM, UserRole.ADMIN] role = true →
      db.events.find? (fun e => e.id == eventId) = some ev →
      adjs.all (adjustmentResolves db.budgets eventId) = true →
      reviewBudgetAfterWrites db eventId reviewerId decision remarks adjs 3
        = (reviewBudget db eventId role reviewerId decision remarks adjs).snd) := by
  refine ⟨rfl, rfl, rfl, rfl, rfl, rfl, ?_⟩
  intro role ev hrole hfind hadj
  unfold reviewBudget reviewBudgetAfterWrites
  rw [hrole, hfind, hadj]
  rfl

/-- C8 witness: the amended statement evaluated on the concrete store, with
the complete run of a concrete finance review. -/
theorem C8_sequential_writes_amended_witness :
    reviewBudgetAfterWrites c8DB 1 9 .APPROVED "ok" [c8Adj] 3
      = (reviewBudget c8DB 1 .FINANCE_TEAM 9 .APPROVED "ok" [c8Adj]).snd :=
  (C8_sequential_writes_amended c8DB 1 9 .APPROVED "ok" [c8Adj]).2.2.2.2.2.2
    .FINANCE_TEAM wEvent (by decide) (by decide) (by decide)

/-- Claim C4 as amended: for every bookable the summary has one entry per
budget line with budgetAmount equal to approvedAmount when present and
nonzero and to the requested amount otherwise, totalExpense the sum of
amounts over exactly the same-bookable same-category expense rows,
remaining the difference with no floor at zero, and expenseCount the
number of same-category expense rows. Stated for both bookable kinds. -/
theorem C4_summary_amended (db : DB) (id : Nat) :
    eventExpenseSummary db id
      = amendedSpecSummaryOf (db.budgets.filter (fun b => b.bookableId == id))
          (db.expenses.filter (fun e => e.bookableId == id)) ∧
    workshopExpenseSummary db id
      = amendedSpecSummaryOf (db.workshopBudgets.filter (fun b => b.bookableId == id))
          (db.workshopExpenses.filter (fun e => e.bookableId == id)) := by
  exact ⟨summaryOf_eq_amended _ _, summaryOf_eq_amended _ _⟩

/-- C1: with both candidate dates present and all intervals well formed, a
venue-assignment request on a bookable of either kind reports a conflict
exactly when some other bookable of either kind - the candidate's own row
excluded - holds the same venue with status Approved or Pending and its
interval s2..e2 meets the single inclusive-overlap test s1 le e2 and
s2 le e1; the three-way OR of the source is equivalent to that single
test on well-formed intervals. -/
theorem C1_conflict_iff_overlap (db : DB)
    (hwfE : datesWellFormed db.events = true)
    (hwfW : datesWellFormed db.workshops = true) :
    (∀ id venueId userId role event venue s1 e1,
      authorize [UserRole.ADMIN, UserRole.FACILITIES_TEAM] role = true →
      db.events.find? (fun e => e.id == id) = some event →
      event.status = BookStatus.APPROVED →
      db.venues.find? (fun v => v.id == venueId) = some venue →
      event.startDate = some s1 → event.endDate = some e1 → s1 ≤ e1 →
      ((∃ l, (assignVenueToEvent db id (some venueId) role userId).fst
          = AssignOutcome.conflict l) ↔
        ((∃ r ∈ db.events, conflictPred venueId (some id) s1 e1 r) ∨
         (∃ r ∈ db.workshops, conflictPred venueId none s1 e1 r)))) ∧
    (∀ id venueId userId role workshop venue s1 e1,
      authorize [UserRole.ADMIN, UserRole.FACILITIES_TEAM] role = true →
      db.workshops.find? (fun w => w.id == id) = some workshop →
      workshop.status = BookStatus.APPROVED →
      db.venues.find? (fun v => v.id == venueId) = some venue →
      workshop.startDate = some s1 → workshop.endDate = some e1 → s1 ≤ e1 →
      ((∃ l, (assignVenueToWorkshop db id (some venueId) role userId).fst
          = AssignOutcome.conflict l) ↔
        ((∃ r ∈ db.workshops, conflictPred venueId (some id) s1 e1 r) ∨
         (∃ r ∈ db.events, conflictPred venueId none s1 e1 r)))) := by
  constructor
  · intro id venueId userId role event venue s1 e1 hrole hfind hstatus hvenue hs he h1
    rw [assignVenueToEvent_core db id venueId userId role event venue s1 e1
      hrole hfind hstatus hvenue hs he]
    rcases hq1 : venueConflictQuery db.events venueId (some id) s1 e1 with _ | ⟨x, xs⟩
    · rcases hq2 : venueConflictQuery db.workshops venueId none s1 e1 with _ | ⟨y, ys⟩
      · constructor
        · rintro ⟨l, hl⟩
          simp at hl
        · rintro (hex | hex)
          · exact absurd hq1
              ((venueConflictQuery_spec db.events venueId (some id) s1 e1 h1 hwfE).mpr hex)
          · exact absurd hq2
              ((venueConflictQuery_spec db.workshops venueId none s1 e1 h1 hwfW).mpr hex)
      · constructor
        · intro _
          refine Or.inr ?_
          have hne : venueConflictQuery db.workshops venueId none s1 e1 ≠ [] := by
            rw [hq2]
            simp
          exact (venueConflictQuery_spec db.workshops venueId none s1 e1 h1 hwfW).mp hne
        · intro _
          exact ⟨_, rfl⟩
    · constructor
      · intro _
        refine Or.inl ?_
        have hne : venueConflictQuery db.events venueId (some id) s1 e1 ≠ [] := by
          rw [hq1]
          simp
        exact (venueConflictQuery_spec db.events venueId (some id) s1 e1 h1 hwfE).mp hne
      · intro _
        exact ⟨_, rfl⟩
  · intro id venueId userId role workshop venue s1 e1 hrole hfind hstatus hvenue hs he h1
    rw [assignVenueToWorkshop_core db id venueId userId role workshop venue s1 e1
      hrole hfind hstatus hvenue hs he]
    rcases hq1 : venueConflictQuery db.workshops venueId (some id) s1 e1 with _ | ⟨x, xs⟩
    · rcases hq2 : venueConflictQuery db.events venueId none s1 e1 with _ | ⟨y, ys⟩
      · constructor
        · rintro ⟨l, hl⟩
          simp at hl
        · rintro (hex | hex)
          · exact absurd hq1
              ((venueConflictQuery_spec db.workshops venueId (some id) s1 e1 h1 hwfW).mpr hex)
          · exact absurd hq2
              ((venueConflictQuery_spec db.events venueId none s1 e1 h1 hwfE).mpr hex)
      · constructor
        · intro _
          refine Or.inr ?_
          have hne : venueConflictQuery db.events venueId none s1 e1 ≠ [] := by
            rw [hq2]
            simp
          exact (venueConflictQuery_spec db.events venueId none s1 e1 h1 hwfE).mp hne
        · intro _
          exact ⟨_, rfl⟩
    · constructor
      · intro _
        refine Or.inl ?_
        have hne : venueConflictQuery db.workshops venueId (some id) s1 e1 ≠ [] := by
          rw [hq1]
          simp
        exact (venueConflictQuery_spec db.workshops venueId (some id) s1 e1 h1 hwfW).mp hne
      · intro _
        exact ⟨_, rfl⟩

/-- C1 witness: assigning venue 5 to approved event A (15..25) while
approved event B (10..20) already holds venue 5 reports a conflict. -/
theorem C1_conflict_iff_overlap_witness :
    ∃ l, (assignVenueToEvent vDB 1 (some 5) .ADMIN 99).fst = AssignOutcome.conflict l :=
  ((C1_conflict_iff_overlap vDB (by decide) (by decide)).1 1 5 99 .ADMIN vEventA vVenue 15 25
    (by decide) (by decide) rfl (by decide) rfl rfl (by decide)).mpr
    (Or.inl ⟨vEventB, by decide, rfl, (show vEventB.id ≠ 1 by decide), Or.inl rfl,
      10, 20, rfl, rfl, by decide, by decide⟩)

/-- C5: for an authorized caller, a venue-assignment on a bookable of
either kind whose status is not Approved fails with precondition-failed
regardless of any conflicts, and the store is unchanged; a missing venueId
fails with bad-request; an unresolved bookable id fails with not-found;
and, on an Approved bookable, an unresolved venue id fails with
not-found - each with no write. -/
theorem C5_error_cases (db : DB) (id : Nat) (role : UserRole) (userId : Nat)
    (hrole : authorize [UserRole.ADMIN, UserRole.FACILITIES_TEAM] role = true) :
    (assignVenueToEvent db id none role userId = (AssignOutcome.badRequest, db) ∧
     assignVenueToWorkshop db id none role userId = (AssignOutcome.badRequest, db)) ∧
    (∀ venueId,
      db.events.find? (fun e => e.id == id) = none →
      assignVenueToEvent db id (some venueId) role userId
        = (AssignOutcome.bookableNotFound, db)) ∧
    (∀ venueId event,
      db.events.find? (fun e => e.id == id) = some event →
      event.status ≠ BookStatus.APPROVED →
      assignVenueToEvent db id (some venueId) role userId
        = (AssignOutcome.preconditionFailed, db)) ∧
    (∀ venueId event,
      db.events.find? (fun e => e.id == id) = some event →
      event.status = BookStatus.APPROVED →
      db.venues.find? (fun v => v.id == venueId) = none →
      assignVenueToEvent db id (some venueId) role userId
        = (AssignOutcome.venueNotFound, db)) ∧
    (∀ venueId,
      db.workshops.find? (fun w => w.id == id) = none →
      assignVenueToWorkshop db id (some venueId) role userId
        = (AssignOutcome.bookableNotFound, db)) ∧
    (∀ venueId workshop,
      db.workshops.find? (fun w => w.id == id) = some workshop →
      workshop.status ≠ BookStatus.APPROVED →
      assignVenueToWorkshop db id (some venueId) role userId
        = (AssignOutcome.preconditionFailed, db)) ∧
    (∀ venueId workshop,
      db.workshops.find? (fun w => w.id == id) = some workshop →
      workshop.status = BookStatus.APPROVED →
      db.venues.find? (fun v => v.id == venueId) = none →
      assignVenueToWorkshop db id (some venueId) role userId
        = (AssignOutcome.venueNotFound, db)) := by
  refine ⟨⟨?_, ?_⟩, ?_, ?_, ?_, ?_, ?_, ?_⟩
  · unfold assignVenueToEvent
    rw [hrole]
    rfl
  · unfold assignVenueToWorkshop
    rw [hrole]
    rfl
  · intro venueId hfind
    unfold assignVenueToEvent
    rw [hrole, hfind]
    rfl
  · intro venueId event hfind hne
    have hb : (event.status != BookStatus.APPROVED) = true := by
      simpa using hne
    unfold assignVenueToEvent
    rw [hrole, hfind]
    dsimp only
    rw [hb]
    rfl
  · intro venueId event hfind hstatus hvenue
    unfold assignVenueToEvent
    rw [hrole, hfind]
    dsimp only
    rw [hstatus, hvenue]
    rfl
  · intro venueId hfind
    unfold assignVenueToWorkshop
    rw [hrole, hfind]
    rfl
  · intro venueId workshop hfind hne
    have hb : (workshop.status != BookStatus.APPROVED) = true := by
      simpa using hne
    unfold assignVenueToWorkshop
    rw [hrole, hfind]
    dsimp only
    rw [hb]
    rfl
  · intro venueId workshop hfind hstatus hvenue
    unfold assignVenueToWorkshop
    rw [hrole, hfind]
    dsimp only
    rw [hstatus, hvenue]
    rfl

/-- C5 witness: the concrete request with no venueId is rejected with
bad-request and the store unchanged. -/
theorem C5_error_cases_witness :
    assignVenueToEvent vDB 1 none .ADMIN 99 = (AssignOutcome.badRequest, vDB) :=
  ((C5_error_cases vDB 1 .ADMIN 99 (by decide)).1).1

/-- C6: once the gates pass, a venue-assignment on a bookable of either
kind that detects a conflict rejects with a nonempty list of conflict
details (title, interval, creator name), each drawn from a bookable of
either kind assigned the same venue with the candidate's own row excluded,
and performs no write at all (the store is exactly the one before the
call); only on success is the venue id written onto the bookable and one
audit row recording the prior and new venue id appended, with every other
table untouched. -/
theorem C6_conflict_whole_or_nothing (db : DB) :
    (∀ id venueId userId role event venue,
      authorize [UserRole.ADMIN, UserRole.FACILITIES_TEAM] role = true →
      db.events.find? (fun e => e.id == id) = some event →
      event.status = BookStatus.APPROVED →
      db.venues.find? (fun v => v.id == venueId) = some venue →
      ((∀ l, (assignVenueToEvent db id (some venueId) role userId).fst
          = AssignOutcome.conflict l →
        (assignVenueToEvent db id (some venueId) role userId).snd = db ∧ l ≠ [] ∧
        ∀ d ∈ l, ∃ r, ((r ∈ db.events ∧ r.id ≠ id) ∨ r ∈ db.workshops) ∧
          r.venueId = some venueId ∧ d = conflictDetail db.users r) ∧
       (∀ v, (assignVenueToEvent db id (some venueId) role userId).fst
          = AssignOutcome.ok v →
        v = venueId ∧
        (assignVenueToEvent db id (some venueId) role userId).snd.events
          = db.events.map (fun e =>
              if e.id == id then { e with venueId := some venueId } else e) ∧
        (assignVenueToEvent db id (some venueId) role userId).snd.events.find?
            (fun e => e.id == id)
          = some { event with venueId := some venueId } ∧
        (assignVenueToEvent db id (some venueId) role userId).snd.activityLogs
          = db.activityLogs ++
            [{ action := "ASSIGN_VENUE", entity := "Event", entityId := id,
               oldVenueId := event.venueId, newVenueId := some venueId,
               userId := userId }] ∧
        (assignVenueToEvent db id (some venueId) role userId).snd.workshops
          = db.workshops ∧
        (assignVenueToEvent db id (some venueId) role userId).snd.budgets = db.budgets ∧
        (assignVenueToEvent db id (some venueId) role userId).snd.budgetApprovals
          = db.budgetApprovals))) ∧
    (∀ id venueId userId role workshop venue,
      authorize [UserRole.ADMIN, UserRole.FACILITIES_TEAM] role = true →
      db.workshops.find? (fun w => w.id == id) = some workshop →
      workshop.status = BookStatus.APPROVED →
      db.venues.find? (fun v => v.id == venueId) = some venue →
      ((∀ l, (assignVenueToWorkshop db id (some venueId) role userId).fst
          = AssignOutcome.conflict l →
        (assignVenueToWorkshop db id (some venueId) role userId).snd = db ∧ l ≠ [] ∧
        ∀ d ∈ l, ∃ r, ((r ∈ db.workshops ∧ r.id ≠ id) ∨ r ∈ db.events) ∧
          r.venueId = some venueId ∧ d = conflictDetail db.users r) ∧
       (∀ v, (assignVenueToWorkshop db id (some venueId) role userId).fst
          = AssignOutcome.ok v →
        v = venueId ∧
        (assignVenueToWorkshop db id (some venueId) role userId).snd.workshops
          = db.workshops.map (fun w =>
              if w.id == id then { w with venueId := some venueId } else w) ∧
        (assignVenueToWorkshop db id (some venueId) role userId).snd.workshops.find?
            (fun w => w.id == id)
          = some { workshop with venueId := some venueId } ∧
        (assignVenueToWorkshop db id (some venueId) role userId).snd.activityLogs
          = db.activityLogs ++
            [{ action := "ASSIGN_VENUE", entity := "Workshop", entityId := id,
               oldVenueId := workshop.venueId, newVenueId := some venueId,
               userId := userId }] ∧
        (assignVenueToWorkshop db id (some venueId) role userId).snd.events
          = db.events ∧
        (assignVenueToWorkshop db id (some venueId) role userId).snd.budgets
          = db.budgets ∧
        (assignVenueToWorkshop db id (some venueId) role userId).snd.budgetApprovals
          = db.budgetApprovals))) := by
  have hf1 : ∀ venueId : Nat,
      ∀ b : Bookable, ({ b with venueId := some venueId } : Bookable).id = b.id :=
    fun _ b => rfl
  constructor
  · intro id venueId userId role event venue hrole hfind hstatus hvenue
    rcases assignVenueToEvent_cases db id venueId userId role event venue
        hrole hfind hstatus hvenue with
      ⟨s1, e1, q, hs, he, horigin, heq⟩ | heq
    · constructor
      · intro l hl
        rw [heq] at hl
        have hlq : q.map (conflictDetail db.users) = l := by
          simpa using hl
        subst hlq
        have hqne : q ≠ [] := by
          rcases horigin with ⟨_, hne⟩ | ⟨_, _, hne⟩ <;> exact hne
        refine ⟨by rw [heq], by simpa using hqne, ?_⟩
        intro d hd
        obtain ⟨r, hrq, rfl⟩ := List.mem_map.mp hd
        rcases horigin with ⟨hqeq, _⟩ | ⟨_, hqeq, _⟩
        · rw [hqeq] at hrq
          obtain ⟨hin, hv, hx⟩ := mem_venueConflictQuery hrq
          exact ⟨r, Or.inl ⟨hin, hx⟩, hv, rfl⟩
        · rw [hqeq] at hrq
          obtain ⟨hin, hv, hx⟩ := mem_venueConflictQuery hrq
          exact ⟨r, Or.inr hin, hv, rfl⟩
      · intro v hv
        rw [heq] at hv
        simp at hv
    · constructor
      · intro l hl
        rw [heq] at hl
        simp at hl
      · intro v hv
        rw [heq] at hv
        have hveq : v = venueId := by
          simpa using hv.symm
        rw [heq]
        refine ⟨hveq, rfl, ?_, rfl, rfl, rfl, rfl⟩
        show (db.events.map (fun e =>
            if e.id == id then { e with venueId := some venueId } else e)).find?
            (fun e => e.id == id) = some { event with venueId := some venueId }
        rw [find?_map_update db.events id
          (fun e => { e with venueId := some venueId }) (hf1 venueId), hfind]
        rfl
  · intro id venueId userId role workshop venue hrole hfind hstatus hvenue
    rcases assignVenueToWorkshop_cases db id venueId userId role workshop venue
        hrole hfind hstatus hvenue with
      ⟨s1, e1, q, hs, he, horigin, heq⟩ | heq
    · constructor
      · intro l hl
        rw [heq] at hl
        have hlq : q.map (conflictDetail db.users) = l := by
          simpa using hl
        subst hlq
        have hqne : q ≠ [] := by
          rcases horigin with ⟨_, hne⟩ | ⟨_, _, hne⟩ <;> exact hne
        refine ⟨by rw [heq], by simpa using hqne, ?_⟩
        intro d hd
        obtain ⟨r, hrq, rfl⟩ := List.mem_map.mp hd
        rcases horigin with ⟨hqeq, _⟩ | ⟨_, hqeq, _⟩
        · rw [hqeq] at hrq
          obtain ⟨hin, hv, hx⟩ := mem_venueConflictQuery hrq
          exact ⟨r, Or.inl ⟨hin, hx⟩, hv, rfl⟩
        · rw [hqeq] at hrq
          obtain ⟨hin, hv, hx⟩ := mem_venueConflictQuery hrq
          exact ⟨r, Or.inr hin, hv, rfl⟩
      · intro v hv
        rw [heq] at hv
        simp at hv
    · constructor
      · intro l hl
        rw [heq] at hl
        simp at hl
      · intro v hv
        rw [heq] at hv
        have hveq : v = venueId := by
          simpa using hv.symm
        rw [heq]
        refine ⟨hveq, rfl, ?_, rfl, rfl, rfl, rfl⟩
        show (db.workshops.map (fun w =>
            if w.id == id then { w with venueId := some venueId } else w)).find?
            (fun w => w.id == id) = some { workshop with venueId := some venueId }
        rw [find?_map_update db.workshops id
          (fun w => { w with venueId := some venueId }) (hf1 venueId), hfind]
        rfl

/-- C6 witness: on the concrete conflicting request the store is returned
unchanged. -/
theorem C6_conflict_whole_or_nothing_witness :
    (assignVenueToEvent vDB 1 (some 5) .ADMIN 99).snd = vDB :=
  (((C6_conflict_whole_or_nothing vDB).1 1 5 99 .ADMIN vEventA vVenue
      (by decide) (by decide) rfl (by decide)).1
    [conflictDetail vDB.users vEventB] (by decide)).1

/-- C9: when the same-kind conflict query is nonempty, the rejection lists
exactly the mapped same-kind conflicts, and the outcome is the same
whatever the other-kind table holds - so for an event assignment with
conflicting events, overlapping workshops are neither consulted nor
reported, and symmetrically for a workshop assignment. -/
theorem C9_same_kind_reported_first (db : DB) :
    (∀ id venueId userId role event venue s1 e1,
      authorize [UserRole.ADMIN, UserRole.FACILITIES_TEAM] role = true →
      db.events.find? (fun e => e.id == id) = some event →
      event.status = BookStatus.APPROVED →
      db.venues.find? (fun v => v.id == venueId) = some venue →
      event.startDate = some s1 → event.endDate = some e1 →
      venueConflictQuery db.events venueId (some id) s1 e1 ≠ [] →
      ((assignVenueToEvent db id (some venueId) role userId).fst
         = AssignOutcome.conflict
            ((venueConflictQuery db.events venueId (some id) s1 e1).map
              (conflictDetail db.users)) ∧
       ∀ ws : List Bookable,
        (assignVenueToEvent { db with workshops := ws } id (some venueId) role userId).fst
          = AssignOutcome.conflict
             ((venueConflictQuery db.events venueId (some id) s1 e1).map
               (conflictDetail db.users)))) ∧
    (∀ id venueId userId role workshop venue s1 e1,
      authorize [UserRole.ADMIN, UserRole.FACILITIES_TEAM] role = true →
      db.workshops.find? (fun w => w.id == id) = some workshop →
      workshop.status = BookStatus.APPROVED →
      db.venues.find? (fun v => v.id == venueId) = some venue →
      workshop.startDate = some s1 → workshop.endDate = some e1 →
      venueConflictQuery db.workshops venueId (some id) s1 e1 ≠ [] →
      ((assignVenueToWorkshop db id (some venueId) role userId).fst
         = AssignOutcome.conflict
            ((venueConflictQuery db.workshops venueId (some id) s1 e1).map
              (conflictDetail db.users)) ∧
       ∀ es : List Bookable,
        (assignVenueToWorkshop { db with events := es } id (some venueId) role userId).fst
          = AssignOutcome.conflict
             ((venueConflictQuery db.workshops venueId (some id) s1 e1).map
               (conflictDetail db.users)))) := by
  constructor
  · intro id venueId userId role event venue s1 e1 hrole hfind hstatus hvenue hs he hne
    obtain ⟨x, xs, hq1⟩ := List.exists_cons_of_ne_nil hne
    constructor
    · rw [assignVenueToEvent_core db id venueId userId role event venue s1 e1
        hrole hfind hstatus hvenue hs he, hq1]
      rfl
    · intro ws
      rw [assignVenueToEvent_core { db with workshops := ws } id venueId userId role
        event venue s1 e1 hrole hfind hstatus hvenue hs he]
      dsimp only
      rw [hq1]
      rfl
  · intro id venueId userId role workshop venue s1 e1 hrole hfind hstatus hvenue hs he hne
    obtain ⟨x, xs, hq1⟩ := List.exists_cons_of_ne_nil hne
    constructor
    · rw [assignVenueToWorkshop_core db id venueId userId role workshop venue s1 e1
        hrole hfind hstatus hvenue hs he, hq1]
      rfl
    · intro es
      rw [assignVenueToWorkshop_core { db with events := es } id venueId userId role
        workshop venue s1 e1 hrole hfind hstatus hvenue hs he]
      dsimp only
      rw [hq1]
      rfl

/-- C9 witness: the concrete conflicting event assignment reports exactly
the mapped same-kind (event) conflicts. -/
theorem C9_same_kind_reported_first_witness :
    (assignVenueToEvent vDB 1 (some 5) .ADMIN 99).fst
      = AssignOutcome.conflict
         ((venueConflictQuery vDB.events 5 (some 1) 15 25).map (conflictDetail vDB.users)) :=
  (((C9_same_kind_reported_first vDB).1 1 5 99 .ADMIN vEventA vVenue 15 25
    (by decide) (by decide) rfl (by decide) rfl rfl (by decide))).1

/-- C3 counterexample: a finance-team caller (neither team lead nor admin)
updates an APPROVED event and the edit succeeds, changing the store - so
the claim that an Approved bookable is refused regardless of role unless
the caller is admin is false on the code. -/
theorem C3_counterexample_role_bypass :
    (updateEvent c3DB 1 .FINANCE_TEAM 20 c3Upd).fst = UpdateOutcome.ok ∧
    (updateEvent c3DB 1 .FINANCE_TEAM 20 c3Upd).snd ≠ c3DB ∧
    UserRole.FINANCE_TEAM ≠ UserRole.ADMIN ∧
    c3Event.status = BookStatus.APPROVED := by
  refine ⟨by decide, by decide, by decide, rfl⟩

/-- Claim C3 as amended: only a team-lead caller is subject to the status
guard. A team-lead updating their own bookable is refused with
precondition-failed while status is Approved or Completed, with the store
unchanged, and succeeds while status is Pending or Rejected (when no
coordinatorEmail needs resolving); a caller of any other role - not only
admin - is never stopped by the ownership or status guard. -/
theorem C3_status_guard_amended (db : DB) (id userId : Nat) (u : EventUpdate) (ev : Bookable)
    (hfind : db.events.find? (fun e => e.id == id) = some ev)
    (hown : ev.creatorId = userId) :
    ((ev.status = BookStatus.APPROVED ∨ ev.status = BookStatus.COMPLETED) →
      updateEvent db id .EVENT_TEAM_LEAD userId u = (UpdateOutcome.cannotEdit, db)) ∧
    ((ev.status = BookStatus.PENDING ∨ ev.status = BookStatus.REJECTED) →
      u.coordinatorEmail = none →
      (updateEvent db id .EVENT_TEAM_LEAD userId u).fst = UpdateOutcome.ok ∧
      (updateEvent db id .EVENT_TEAM_LEAD userId u).snd.events
        = db.events.map (fun e => if e.id == id then applyEventUpdate e u none else e)) ∧
    (∀ role, role ≠ UserRole.EVENT_TEAM_LEAD →
      (updateEvent db id role userId u).fst ≠ UpdateOutcome.cannotEdit ∧
      (updateEvent db id role userId u).fst ≠ UpdateOutcome.accessDenied) := by
  refine ⟨?_, ?_, ?_⟩
  · intro hst
    rcases hst with h | h <;>
      (unfold updateEvent
       rw [hfind]
       dsimp only
       rw [hown, h]
       simp)
  · intro hst hce
    rcases hst with h | h <;>
      (unfold updateEvent
       rw [hfind]
       dsimp only
       rw [hown, h, hce]
       refine ⟨by simp, by simp⟩)
  · intro role hrole
    have hb : (role == UserRole.EVENT_TEAM_LEAD) = false := by
      simpa using hrole
    unfold updateEvent
    rw [hfind]
    dsimp only
    rw [hb]
    rcases hce : u.coordinatorEmail with _ | em
    · exact ⟨by simp, by simp⟩
    · rcases hu : db.users.find? (fun usr =>
          usr.email == em && usr.role == .EVENT_COORDINATOR && usr.isActive) with _ | c
      · exact ⟨by simp [hu], by simp [hu]⟩
      · exact ⟨by simp [hu], by simp [hu]⟩

/-- C3 amended witness: the owning team lead is refused on the APPROVED
event with the store unchanged. -/
theorem C3_status_guard_amended_witness :
    updateEvent c3DB 1 .EVENT_TEAM_LEAD 10 c3Upd = (UpdateOutcome.cannotEdit, c3DB) :=
  (C3_status_guard_amended c3DB 1 10 c3Upd c3Event (by decide) rfl).1 (Or.inl rfl)

/-- C7: the read operations return exactly the role-scoped visible set: a
team-lead caller lists exactly the events they created and a coordinator
caller exactly the events they coordinate, while admin, finance and
facilities callers list all events with no filter; get-by-id refuses a
team-lead outside their creator scope and a coordinator outside their
coordinator scope with access denied, returns the event inside scope, and
returns it unconditionally to admin, finance and facilities callers; an
unresolved id is not-found for every role. -/
theorem C7_role_scoped_visibility (db : DB) (userId : Nat) :
    (∀ e, e ∈ listEvents db .EVENT_TEAM_LEAD userId ↔
      e ∈ db.events ∧ e.creatorId = userId) ∧
    (∀ e, e ∈ listEvents db .EVENT_COORDINATOR userId ↔
      e ∈ db.events ∧ e.coordinatorId = some userId) ∧
    (∀ role, role = UserRole.ADMIN ∨ role = UserRole.FINANCE_TEAM ∨
        role = UserRole.FACILITIES_TEAM →
      listEvents db role userId = db.events) ∧
    (∀ id event, db.events.find? (fun e => e.id == id) = some event →
      ((getEventById db id .EVENT_TEAM_LEAD userId = .ok event ↔
          event.creatorId = userId) ∧
       (event.creatorId ≠ userId →
          getEventById db id .EVENT_TEAM_LEAD userId = .accessDenied) ∧
       (getEventById db id .EVENT_COORDINATOR userId = .ok event ↔
          event.coordinatorId = some userId) ∧
       (event.coordinatorId ≠ some userId →
          getEventById db id .EVENT_COORDINATOR userId = .accessDenied) ∧
       (∀ role, role = UserRole.ADMIN ∨ role = UserRole.FINANCE_TEAM ∨
            role = UserRole.FACILITIES_TEAM →
          getEventById db id role userId = .ok event))) ∧
    (∀ id, db.events.find? (fun e => e.id == id) = none →
      ∀ role, getEventById db id role userId = .notFound) := by
  refine ⟨?_, ?_, ?_, ?_, ?_⟩
  · intro e
    simp [listEvents, List.mem_filter]
  · intro e
    simp [listEvents, List.mem_filter]
  · rintro role (rfl | rfl | rfl) <;> rfl
  · intro id event hfind
    refine ⟨?_, ?_, ?_, ?_, ?_⟩
    · by_cases hc : event.creatorId = userId <;>
        simp [getEventById, hfind, hc]
    · intro hc
      simp [getEventById, hfind, hc]
    · by_cases hc : event.coordinatorId = some userId <;>
        simp [getEventById, hfind, hc]
    · intro hc
      simp [getEventById, hfind, hc]
    · rintro role (rfl | rfl | rfl) <;> simp [getEventById, hfind]
  · intro id hfind role
    simp [getEventById, hfind]

/-- C7 witness: an admin caller reads the concrete event by id. -/
theorem C7_role_scoped_visibility_witness :
    getEventById vDB 1 .ADMIN 99 = .ok vEventA :=
  ((C7_role_scoped_visibility vDB 99).2.2.2.1 1 vEventA (by decide)).2.2.2.2
    .ADMIN (Or.inl rfl)

end Y26
